import Mathlib

/-!
Verification of the per-component lifecycle state machine
(`components::impl::ComponentInfo`) against its specification.

The embedding models the sequential (mutex-serialized) behaviour of each
operation: every public method holds the cell's single `engine::Mutex` for
its mutating section, so an interleaving of calls is a sequence of atomic
state transitions on the record below.  Component instances are identified
by a `Nat`; the held `unique_ptr` slot is an `Option Nat`.
-/

set_option autoImplicit false

namespace ComponentLifecycle

/-- Modelled from the spec: the enumeration `ComponentLifetimeStage` is
declared outside the excerpted sources (only `kCreated` appears in them);
the spec fixes the total order
Unborn → Constructed → Running → NotifiedPeersStopping → Torn-down. -/
inductive ComponentLifetimeStage where
  | kUnborn
  | kCreated
  | kRunning
  | kNotifiedPeersStopping
  | kTornDown
deriving DecidableEq, Repr

/-- Position of a stage in the spec's total order. -/
def stageIdx : ComponentLifetimeStage → Nat
  | .kUnborn => 0
  | .kCreated => 1
  | .kRunning => 2
  | .kNotifiedPeersStopping => 3
  | .kTornDown => 4

/-- State of one lifecycle cell (`components::impl::ComponentInfo`).
Fields mirror the data members: `component_` (the held `unique_ptr`,
instances named by `Nat`), `stage_`, `stage_switching_cancelled_`,
`on_loading_cancelled_called_`, `it_depends_on_`, `depends_on_it_`.
`hook_calls` is a ghost counter of how many times
`component_->OnLoadingCancelled()` has actually been invoked. -/
structure ComponentInfo where
  name : String
  component : Option Nat
  stage : ComponentLifetimeStage
  stage_switching_cancelled : Bool
  on_loading_cancelled_called : Bool
  it_depends_on : List String
  depends_on_it : List String
  hook_calls : Nat
deriving DecidableEq, Repr

/-- `ComponentInfo::ComponentInfo(std::string name)`: a fresh cell is empty,
with all flags clear; the initial stage is the pre-construction stage
(modelled from the spec as Unborn, the enum declaration being outside the
excerpted sources). -/
def initComponentInfo (name : String) : ComponentInfo :=
  { name := name
    component := none
    stage := .kUnborn
    stage_switching_cancelled := false
    on_loading_cancelled_called := false
    it_depends_on := []
    depends_on_it := []
    hook_calls := 0 }

/-- `ComponentInfo::HasComponent`. -/
def hasComponent (c : ComponentInfo) : Bool :=
  c.component.isSome

/-- `ComponentInfo::GetComponent`: non-blocking read of the raw pointer. -/
def getComponent (c : ComponentInfo) : Option Nat :=
  c.component

/-- `ComponentInfo::OnLoadingCancelled`: `if (!HasComponent()) return;`
then `if (on_loading_cancelled_called_.exchange(true)) return;` and only
then `component_->OnLoadingCancelled()` (the ghost counter records the
actual callback invocation). -/
def onLoadingCancelled (c : ComponentInfo) : ComponentInfo :=
  if c.component.isNone then c
  else if c.on_loading_cancelled_called then c
  else { c with on_loading_cancelled_called := true, hook_calls := c.hook_calls + 1 }

/-- `ComponentInfo::SetComponent`: under the lock, stores the instance and
sets `stage_ = kCreated`, capturing whether `stage_switching_cancelled_`
was set; after unlocking, calls `OnLoadingCancelled()` when it was. -/
def setComponent (c : ComponentInfo) (x : Nat) : ComponentInfo :=
  let c1 := { c with component := some x, stage := ComponentLifetimeStage.kCreated }
  if c1.stage_switching_cancelled then onLoadingCancelled c1 else c1

/-- `ComponentInfo::ExtractComponent`: swaps the held slot with an empty
one under the lock and returns the taken value. -/
def extractComponent (c : ComponentInfo) : Option Nat × ComponentInfo :=
  (c.component, { c with component := none })

/-- `ComponentInfo::ClearComponent`: `if (!HasComponent()) return;` then
extracts and destroys the component (tracing/logging have no cell effect). -/
def clearComponent (c : ComponentInfo) : ComponentInfo :=
  if c.component.isNone then c else (extractComponent c).2

/-- `ComponentInfo::SetStageSwitchingCancelled`: assigns the argument to
`stage_switching_cancelled_` and notifies all waiters. -/
def setStageSwitchingCancelled (c : ComponentInfo) (cancelled : Bool) : ComponentInfo :=
  { c with stage_switching_cancelled := cancelled }

/-- `ComponentInfo::SetStage`: assigns the argument to `stage_`
unconditionally and notifies all waiters. -/
def setStage (c : ComponentInfo) (stage : ComponentLifetimeStage) : ComponentInfo :=
  { c with stage := stage }

/-- `ComponentInfo::GetStage`. -/
def getStage (c : ComponentInfo) : ComponentLifetimeStage :=
  c.stage

/-- `std::unordered_set<std::string>::insert`: set semantics, duplicate
inserts collapse. -/
def insertName (s : List String) (n : String) : List String :=
  if n ∈ s then s else n :: s

/-- `ComponentInfo::AddItDependsOn`. -/
def addItDependsOn (c : ComponentInfo) (component : String) : ComponentInfo :=
  { c with it_depends_on := insertName c.it_depends_on component }

/-- `ComponentInfo::AddDependsOnIt`. -/
def addDependsOnIt (c : ComponentInfo) (component : String) : ComponentInfo :=
  { c with depends_on_it := insertName c.depends_on_it component }

/-- `ComponentInfo::CheckItDependsOn`. -/
def checkItDependsOn (c : ComponentInfo) (component : String) : Bool :=
  c.it_depends_on.contains component

/-- `ComponentInfo::CheckDependsOnIt`. -/
def checkDependsOnIt (c : ComponentInfo) (component : String) : Bool :=
  c.depends_on_it.contains component

/-- `ComponentInfo::OnAllComponentsLoaded`: `if (!HasComponent()) return;`
then runs the component hook inside try/catch; a thrown `std::exception`
is wrapped as `"OnAllComponentsLoaded() failed for component " + name_ +
": " + ex.what()` and re-raised as `std::runtime_error`.  The hook's own
outcome is the `hook` argument (the component body is external). -/
def onAllComponentsLoaded (c : ComponentInfo) (hook : Except String Unit) :
    Except String Unit :=
  if c.component.isNone then Except.ok ()
  else
    match hook with
    | Except.ok () => Except.ok ()
    | Except.error ex =>
        Except.error ("OnAllComponentsLoaded() failed for component " ++ c.name ++ ": " ++ ex)

/-- `ComponentInfo::OnAllComponentsAreStopping`: hook failures are caught,
logged and swallowed; the call always returns normally and never mutates
the cell. -/
def onAllComponentsAreStopping (_c : ComponentInfo) (_hook : Except String Unit) :
    Except String Unit :=
  Except.ok ()

/-- Wait predicate of `WaitAndGetComponent`:
`stage_switching_cancelled_ || component_.get() != nullptr`. -/
def waitGetPredicate (c : ComponentInfo) : Bool :=
  c.stage_switching_cancelled || c.component.isSome

/-- `ComponentInfo::WaitAndGetComponent`.  `engine::ConditionVariable::Wait
(lock, pred)` is outside the excerpted sources; modelled from the spec:
the call suspends until the predicate holds (re-checked under the lock
after every wakeup) and `ok` is the final predicate value; `interrupted`
is the engine-level task cancellation that can end the wait with the
predicate still false.  `none` means the call has not returned (it is
still blocked); `some (Except.error ())` is the thrown
`ComponentsLoadCancelledException`; `some (Except.ok p)` returns the raw
pointer `p`. -/
def waitAndGetComponent (c : ComponentInfo) (interrupted : Bool) :
    Option (Except Unit (Option Nat)) :=
  if waitGetPredicate c || interrupted then
    if !(waitGetPredicate c) || c.stage_switching_cancelled then
      some (Except.error ())
    else
      some (Except.ok c.component)
  else none

/-- Wait predicate of `WaitStage`:
`stage_switching_cancelled_ || stage_ == stage`. -/
def waitStagePredicate (c : ComponentInfo) (stage : ComponentLifetimeStage) : Bool :=
  c.stage_switching_cancelled || decide (c.stage = stage)

/-- `ComponentInfo::WaitStage`.  Same condition-variable model as
`waitAndGetComponent`.  The thrown `StageSwitchingCancelledException`
carries `method_name + " cancelled"`; it is raised only when
`!ok && stage_switching_cancelled_`, where `ok` is the final predicate
value evaluated under the still-held lock. -/
def waitStage (c : ComponentInfo) (stage : ComponentLifetimeStage)
    (method_name : String) (interrupted : Bool) : Option (Except String Unit) :=
  if waitStagePredicate c stage || interrupted then
    if !(waitStagePredicate c stage) && c.stage_switching_cancelled then
      some (Except.error (method_name ++ " cancelled"))
    else
      some (Except.ok ())
  else none

/-- One mutating call of the public interface (read-only calls do not
change the cell).  Hook outcomes of the external component body are
carried as data. -/
inductive Op where
  | setComponent (x : Nat)
  | clearComponent
  | onLoadingCancelled
  | onAllComponentsLoaded (hook : Except String Unit)
  | onAllComponentsAreStopping (hook : Except String Unit)
  | setStageSwitchingCancelled (cancelled : Bool)
  | setStage (stage : ComponentLifetimeStage)
  | extractComponent
  | addItDependsOn (name : String)
  | addDependsOnIt (name : String)
deriving Repr

/-- State effect of one interface call. -/
def applyOp (c : ComponentInfo) : Op → ComponentInfo
  | .setComponent x => setComponent c x
  | .clearComponent => clearComponent c
  | .onLoadingCancelled => onLoadingCancelled c
  | .onAllComponentsLoaded _ => c
  | .onAllComponentsAreStopping _ => c
  | .setStageSwitchingCancelled b => setStageSwitchingCancelled c b
  | .setStage s => setStage c s
  | .extractComponent => (extractComponent c).2
  | .addItDependsOn n => addItDependsOn c n
  | .addDependsOnIt n => addDependsOnIt c n

/-- Run a sequence of interface calls. -/
def run (c : ComponentInfo) : List Op → ComponentInfo
  | [] => c
  | op :: ops => run (applyOp c op) ops

/-- Does the call install a component (`SetComponent`)? -/
def isSetComponentOp : Op → Bool
  | .setComponent _ => true
  | _ => false

/-- Argument of a `SetStageSwitchingCancelled` call, if the call is one. -/
def cancelledArg : Op → Option Bool
  | .setStageSwitchingCancelled b => some b
  | _ => none

/-- Results of `n` successive `ExtractComponent` calls on one cell (the
mutex serializes concurrent callers into such a sequence). -/
def extractResults (c : ComponentInfo) : Nat → List (Option Nat)
  | 0 => []
  | n + 1 => (extractComponent c).1 :: extractResults (extractComponent c).2 n

/-- The cancellation callback has run at most once, and not at all while
the `on_loading_cancelled_called_` guard is still clear. -/
def HookInv (c : ComponentInfo) : Prop :=
  c.hook_calls ≤ 1 ∧ (c.on_loading_cancelled_called = false → c.hook_calls = 0)

/-- A cell on which `SetComponent` has never been called: the slot is
empty, the hook guard is clear, and the callback has never run. -/
def PreInstall (c : ComponentInfo) : Prop :=
  c.component = none ∧ c.on_loading_cancelled_called = false ∧ c.hook_calls = 0

/-! ### Helper lemmas on single operations -/

theorem onLoadingCancelled_component (c : ComponentInfo) :
    (onLoadingCancelled c).component = c.component := by
  by_cases h1 : c.component.isNone <;> by_cases h2 : c.on_loading_cancelled_called <;>
    simp [onLoadingCancelled, h1, h2]

theorem onLoadingCancelled_stage (c : ComponentInfo) :
    (onLoadingCancelled c).stage = c.stage := by
  by_cases h1 : c.component.isNone <;> by_cases h2 : c.on_loading_cancelled_called <;>
    simp [onLoadingCancelled, h1, h2]

theorem onLoadingCancelled_cancelled (c : ComponentInfo) :
    (onLoadingCancelled c).stage_switching_cancelled = c.stage_switching_cancelled := by
  by_cases h1 : c.component.isNone <;> by_cases h2 : c.on_loading_cancelled_called <;>
    simp [onLoadingCancelled, h1, h2]

theorem setComponent_component (c : ComponentInfo) (x : Nat) :
    (setComponent c x).component = some x := by
  unfold setComponent
  by_cases h : c.stage_switching_cancelled <;> simp [h, onLoadingCancelled_component]

theorem setComponent_stage (c : ComponentInfo) (x : Nat) :
    (setComponent c x).stage = ComponentLifetimeStage.kCreated := by
  unfold setComponent
  by_cases h : c.stage_switching_cancelled <;> simp [h, onLoadingCancelled_stage]

theorem setComponent_cancelled (c : ComponentInfo) (x : Nat) :
    (setComponent c x).stage_switching_cancelled = c.stage_switching_cancelled := by
  unfold setComponent
  by_cases h : c.stage_switching_cancelled <;> simp [h, onLoadingCancelled_cancelled]

/-! ### The exactly-once invariant for the cancellation hook -/

theorem hookInv_onLoadingCancelled {c : ComponentInfo} (h : HookInv c) :
    HookInv (onLoadingCancelled c) := by
  obtain ⟨h1, h2⟩ := h
  by_cases hc : c.component.isNone
  · have e : onLoadingCancelled c = c := by simp [onLoadingCancelled, hc]
    rw [e]; exact ⟨h1, h2⟩
  · by_cases hf : c.on_loading_cancelled_called
    · have e : onLoadingCancelled c = c := by simp [onLoadingCancelled, hc, hf]
      rw [e]; exact ⟨h1, h2⟩
    · have h0 : c.hook_calls = 0 := h2 (by simpa using hf)
      refine ⟨?_, ?_⟩ <;> simp [onLoadingCancelled, hc, hf, h0]

theorem hookInv_applyOp {c : ComponentInfo} (h : HookInv c) (op : Op) :
    HookInv (applyOp c op) := by
  cases op with
  | setComponent x =>
      show HookInv (setComponent c x)
      unfold setComponent
      by_cases hcanc : c.stage_switching_cancelled
      · simpa [hcanc] using
          hookInv_onLoadingCancelled
            (c := { c with component := some x, stage := ComponentLifetimeStage.kCreated }) h
      · simpa [hcanc] using h
  | clearComponent =>
      show HookInv (clearComponent c)
      unfold clearComponent
      by_cases hc : c.component.isNone
      · simpa [hc] using h
      · simpa [hc] using h
  | onLoadingCancelled => exact hookInv_onLoadingCancelled h
  | onAllComponentsLoaded hook => exact h
  | onAllComponentsAreStopping hook => exact h
  | setStageSwitchingCancelled b => exact h
  | setStage s => exact h
  | extractComponent => exact h
  | addItDependsOn n => exact h
  | addDependsOnIt n => exact h

theorem hookInv_run {c : ComponentInfo} (h : HookInv c) (tr : List Op) :
    HookInv (run c tr) := by
  induction tr generalizing c with
  | nil => exact h
  | cons op ops ih => exact ih (hookInv_applyOp h op)

theorem hookInv_init (name : String) : HookInv (initComponentInfo name) :=
  ⟨Nat.zero_le 1, fun _ => rfl⟩

/-! ### Cells that have never received a component -/

theorem preInstall_applyOp {c : ComponentInfo} (h : PreInstall c) {op : Op}
    (hop : isSetComponentOp op = false) : PreInstall (applyOp c op) := by
  obtain ⟨h1, h2, h3⟩ := h
  cases op with
  | setComponent x => simp [isSetComponentOp] at hop
  | clearComponent =>
      show PreInstall (clearComponent c)
      have e : clearComponent c = c := by simp [clearComponent, h1]
      rw [e]; exact ⟨h1, h2, h3⟩
  | onLoadingCancelled =>
      show PreInstall (onLoadingCancelled c)
      have e : onLoadingCancelled c = c := by simp [onLoadingCancelled, h1]
      rw [e]; exact ⟨h1, h2, h3⟩
  | onAllComponentsLoaded hook => exact ⟨h1, h2, h3⟩
  | onAllComponentsAreStopping hook => exact ⟨h1, h2, h3⟩
  | setStageSwitchingCancelled b => exact ⟨h1, h2, h3⟩
  | setStage s => exact ⟨h1, h2, h3⟩
  | extractComponent => exact ⟨rfl, h2, h3⟩
  | addItDependsOn n => exact ⟨h1, h2, h3⟩
  | addDependsOnIt n => exact ⟨h1, h2, h3⟩

theorem preInstall_run {c : ComponentInfo} (h : PreInstall c) (tr : List Op)
    (hall : tr.all (fun op => !(isSetComponentOp op)) = true) : PreInstall (run c tr) := by
  induction tr generalizing c with
  | nil => exact h
  | cons op ops ih =>
      rw [List.all_cons, Bool.and_eq_true] at hall
      exact ih (preInstall_applyOp h (by simpa using hall.1)) hall.2

theorem preInstall_init (name : String) : PreInstall (initComponentInfo name) :=
  ⟨rfl, rfl, rfl⟩

/-! ### Successive extractions -/

theorem extractResults_of_empty (n : Nat) (c : ComponentInfo) (h : c.component = none) :
    (extractResults c n).countP (fun r => r.isSome) = 0 := by
  induction n generalizing c with
  | zero => rfl
  | succ n ih =>
      have ht : ((extractComponent c).2).component = none := rfl
      have hh : (extractComponent c).1 = none := h
      rw [extractResults, List.countP_cons, ih _ ht, hh]
      simp

theorem extractResults_count_le_one (c : ComponentInfo) (n : Nat) :
    (extractResults c n).countP (fun r => r.isSome) ≤ 1 := by
  cases n with
  | zero => simp [extractResults]
  | succ n =>
      have h0 : (extractResults (extractComponent c).2 n).countP (fun r => r.isSome) = 0 :=
        extractResults_of_empty n _ rfl
      simp only [extractResults, List.countP_cons, h0]
      cases hc : c.component <;> simp [extractComponent, hc]

/-! ### Claims -/

/-- Claim C1 (counterexample): a cell that holds a component but whose
`stage_switching_cancelled_` flag is set makes `WaitAndGetComponent`
throw `ComponentsLoadCancelledException` instead of returning the held
component — the component IS retroactively hidden by a later
`SetStageSwitchingCancelled(true)`, refuting the claim that a call on a
cell already holding a component returns the component and does not
fail. -/
theorem C1_counterexample_held_component_hidden :
    ({ initComponentInfo "A" with
        component := some 7, stage_switching_cancelled := true } : ComponentInfo).component
      = some 7 ∧
    waitAndGetComponent
      { initComponentInfo "A" with component := some 7, stage_switching_cancelled := true }
      false
      = some (Except.error ()) :=
  ⟨rfl, rfl⟩

/-- Claim C1 (amended): `WaitAndGetComponent` returns the cancellation
error whenever `stage_switching_cancelled_` is set at wake time — even if
a component is held — and returns the held component exactly when a
component is held and cancellation has not been requested.  In
particular, a call on a cancelled cell never blocks. -/
theorem C1_amended_cancellation_dominates (c : ComponentInfo) (interrupted : Bool) (x : Nat) :
    (c.stage_switching_cancelled = true →
      waitAndGetComponent c interrupted = some (Except.error ())) ∧
    (c.stage_switching_cancelled = false → c.component = some x →
      waitAndGetComponent c interrupted = some (Except.ok (some x))) := by
  constructor
  · intro hcanc
    simp [waitAndGetComponent, waitGetPredicate, hcanc]
  · intro hcanc hcomp
    simp [waitAndGetComponent, waitGetPredicate, hcanc, hcomp]

/-- Witness for C1 (amended): a cancelled empty cell errors immediately;
an uncancelled cell holding component 7 returns it. -/
theorem C1_amended_cancellation_dominates_witness :
    waitAndGetComponent
      { initComponentInfo "A" with stage_switching_cancelled := true } false
      = some (Except.error ()) ∧
    waitAndGetComponent
      { initComponentInfo "A" with component := some 7 } false
      = some (Except.ok (some 7)) :=
  ⟨(C1_amended_cancellation_dominates
      { initComponentInfo "A" with stage_switching_cancelled := true } false 0).1 rfl,
   (C1_amended_cancellation_dominates
      { initComponentInfo "A" with component := some 7 } false 7).2 rfl rfl⟩

/-- Claim C2 (code evaluation): `WaitStage` can never raise
`StageSwitchingCancelledException`.  Its guard is
`!ok && stage_switching_cancelled_`, but `ok` is the wait predicate
`stage_switching_cancelled_ || stage_ == stage` re-evaluated under the
still-held lock, so `ok = false` forces the flag to be clear and the
guard is unsatisfiable: every call either still blocks or returns
normally.  At the failing input (cancelled cell whose stage has not
reached the target) the call returns normally instead of raising the
claimed cancellation error. -/
theorem C2_wait_stage_error_unreachable :
    (∀ (c : ComponentInfo) (stage : ComponentLifetimeStage) (m : String) (i : Bool),
      waitStage c stage m i = none ∨ waitStage c stage m i = some (Except.ok ())) ∧
    waitStage { initComponentInfo "A" with stage_switching_cancelled := true }
      ComponentLifetimeStage.kCreated "OnAllComponentsLoaded" false
      = some (Except.ok ()) := by
  constructor
  · intro c stage m i
    unfold waitStage
    by_cases hp : waitStagePredicate c stage
    · right
      simp [hp]
    · have hp0 : waitStagePredicate c stage = false := by simpa using hp
      have hcanc : c.stage_switching_cancelled = false := by
        have := hp0
        unfold waitStagePredicate at this
        rcases Bool.or_eq_false_iff.mp this with ⟨ha, _⟩
        exact ha
      cases i
      · left
        simp [hp0]
      · right
        simp [hp0, hcanc]
  · rfl

/-- Claim C3: over every sequence of interface calls — covering every
interleaving of the two call sites, the inline path in `SetComponent`
and explicit `OnLoadingCancelled` calls — the cancellation callback runs
at most once on a cell; and two successive `OnLoadingCancelled` calls on
a cell holding a component with the guard still clear invoke the
callback exactly once, any further call being a no-op. -/
theorem C3_hook_at_most_once :
    (∀ (name : String) (tr : List Op), (run (initComponentInfo name) tr).hook_calls ≤ 1) ∧
    (∀ c : ComponentInfo, c.component.isSome = true → c.on_loading_cancelled_called = false →
      (onLoadingCancelled (onLoadingCancelled c)).hook_calls = c.hook_calls + 1 ∧
      onLoadingCancelled (onLoadingCancelled (onLoadingCancelled c)) =
        onLoadingCancelled (onLoadingCancelled c)) := by
  constructor
  · intro name tr
    exact (hookInv_run (hookInv_init name) tr).1
  · intro c hcomp hflag
    have hnone : c.component.isNone = false := by
      cases hc : c.component
      · rw [hc] at hcomp; exact absurd hcomp (by simp)
      · rfl
    have e1 : onLoadingCancelled c
        = { c with on_loading_cancelled_called := true, hook_calls := c.hook_calls + 1 } := by
      simp [onLoadingCancelled, hnone, hflag]
    have e2 : onLoadingCancelled (onLoadingCancelled c) = onLoadingCancelled c := by
      rw [e1]
      simp [onLoadingCancelled, hnone]
    constructor
    · rw [e2, e1]
    · rw [e2]
      exact e2

/-- Witness for C3 at a concrete trace (cancellation requested, component
installed, hook site hit twice more) and a concrete holding cell. -/
theorem C3_hook_at_most_once_witness :
    (run (initComponentInfo "A")
      [Op.setStageSwitchingCancelled true, Op.setComponent 1, Op.onLoadingCancelled,
        Op.onLoadingCancelled]).hook_calls ≤ 1 ∧
    (onLoadingCancelled (onLoadingCancelled
        { initComponentInfo "A" with component := some 1 })).hook_calls
      = ({ initComponentInfo "A" with component := some 1 } : ComponentInfo).hook_calls + 1 :=
  ⟨C3_hook_at_most_once.1 "A"
      [Op.setStageSwitchingCancelled true, Op.setComponent 1, Op.onLoadingCancelled,
        Op.onLoadingCancelled],
   (C3_hook_at_most_once.2 { initComponentInfo "A" with component := some 1 } rfl rfl).1⟩

/-- `SetComponent` on a cell that has never received a component, with
cancellation already requested: it installs, advances the stage, and
fires the hook inline. -/
theorem setComponent_on_preinstalled {c : ComponentInfo} (h : PreInstall c)
    (hcanc : c.stage_switching_cancelled = true) (x : Nat) :
    (setComponent c x).component = some x ∧
    (setComponent c x).stage = ComponentLifetimeStage.kCreated ∧
    (setComponent c x).hook_calls = c.hook_calls + 1 ∧
    (setComponent c x).on_loading_cancelled_called = true := by
  obtain ⟨h1, h2, h3⟩ := h
  have e : setComponent c x
      = { c with
          component := some x
          stage := ComponentLifetimeStage.kCreated
          on_loading_cancelled_called := true
          hook_calls := c.hook_calls + 1 } := by
    simp [setComponent, hcanc, onLoadingCancelled, h2]
  rw [e]
  exact ⟨rfl, rfl, rfl, rfl⟩

/-- Claim C4: on every cell on which `SetComponent` was never called (so
the slot is empty), a `SetComponent` call stores the instance — observed
by `GetComponent` and `HasComponent` — advances the stage to `kCreated`,
and, when `stage_switching_cancelled_` was already set, synchronously
invokes the cancellation hook on the new instance before returning. -/
theorem C4_set_component_installs_and_fires_hook (name : String) (tr : List Op) (x : Nat)
    (hns : tr.all (fun op => !(isSetComponentOp op)) = true)
    (hcanc : (run (initComponentInfo name) tr).stage_switching_cancelled = true) :
    (run (initComponentInfo name) tr).component = none ∧
    (setComponent (run (initComponentInfo name) tr) x).component = some x ∧
    getComponent (setComponent (run (initComponentInfo name) tr) x) = some x ∧
    hasComponent (setComponent (run (initComponentInfo name) tr) x) = true ∧
    (setComponent (run (initComponentInfo name) tr) x).stage = ComponentLifetimeStage.kCreated ∧
    (setComponent (run (initComponentInfo name) tr) x).hook_calls
      = (run (initComponentInfo name) tr).hook_calls + 1 ∧
    (setComponent (run (initComponentInfo name) tr) x).on_loading_cancelled_called = true := by
  have hpre := preInstall_run (preInstall_init name) tr hns
  obtain ⟨hcmp, hstg, hcal, hflg⟩ := setComponent_on_preinstalled hpre hcanc x
  refine ⟨hpre.1, hcmp, hcmp, ?_, hstg, hcal, hflg⟩
  show (setComponent (run (initComponentInfo name) tr) x).component.isSome = true
  rw [hcmp]
  rfl

/-- Witness for C4: request cancellation on a fresh cell, then install. -/
theorem C4_set_component_installs_and_fires_hook_witness :
    (setComponent (run (initComponentInfo "A") [Op.setStageSwitchingCancelled true]) 5).component
      = some 5 ∧
    (setComponent (run (initComponentInfo "A") [Op.setStageSwitchingCancelled true]) 5).stage
      = ComponentLifetimeStage.kCreated ∧
    (setComponent (run (initComponentInfo "A") [Op.setStageSwitchingCancelled true]) 5).hook_calls
      = (run (initComponentInfo "A") [Op.setStageSwitchingCancelled true]).hook_calls + 1 :=
  have h := C4_set_component_installs_and_fires_hook "A"
    [Op.setStageSwitchingCancelled true] 5 rfl rfl
  ⟨h.2.1, h.2.2.2.2.1, h.2.2.2.2.2.1⟩

/-- Claim C5: extraction takes the held component out exactly once: on a
holding cell it returns the component and empties the slot, a repeated
extraction returns empty, and in any (mutex-serialized) sequence of
extractions at most one caller receives a non-empty result. -/
theorem C5_extract_exactly_once :
    (∀ (c : ComponentInfo) (x : Nat), c.component = some x →
      (extractComponent c).1 = some x ∧
      ((extractComponent c).2).component = none ∧
      (extractComponent ((extractComponent c).2)).1 = none) ∧
    (∀ (c : ComponentInfo) (n : Nat),
      (extractResults c n).countP (fun r => r.isSome) ≤ 1) := by
  constructor
  · intro c x h
    exact ⟨h, rfl, rfl⟩
  · exact extractResults_count_le_one

/-- Witness for C5 on a cell holding component 3. -/
theorem C5_extract_exactly_once_witness :
    (extractComponent { initComponentInfo "A" with component := some 3 }).1 = some 3 ∧
    (extractComponent ((extractComponent
        { initComponentInfo "A" with component := some 3 }).2)).1 = none :=
  have h := C5_extract_exactly_once.1 { initComponentInfo "A" with component := some 3 } 3 rfl
  ⟨h.1, h.2.2⟩

/-- Claim C6 (counterexample): after a non-empty extraction the slot does
NOT stay empty forever — `SetComponent` refills it, refuting "no later
operation (including set_component) refills it". -/
theorem C6_counterexample_refill_after_extract :
    (extractComponent { initComponentInfo "A" with component := some 3 }).1 = some 3 ∧
    ((extractComponent { initComponentInfo "A" with component := some 3 }).2).component = none ∧
    (setComponent ((extractComponent
        { initComponentInfo "A" with component := some 3 }).2) 9).component = some 9 :=
  ⟨rfl, rfl, rfl⟩

/-- Claim C6 (amended): the held slot is a single optional value (so at
most one component occupies it at a time); after extraction it stays
empty under every operation except `SetComponent`, which unconditionally
refills it — the single-shot/no-refill rule is an orchestrator
precondition, not enforced by the cell. -/
theorem C6_amended_no_refill_except_set (c : ComponentInfo) (op : Op) (x : Nat)
    (hempty : c.component = none) (hop : isSetComponentOp op = false) :
    (applyOp c op).component = none ∧ (setComponent c x).component = some x := by
  refine ⟨?_, setComponent_component c x⟩
  cases op with
  | setComponent y => simp [isSetComponentOp] at hop
  | clearComponent =>
      show (clearComponent c).component = none
      simp [clearComponent, hempty]
  | onLoadingCancelled =>
      show (onLoadingCancelled c).component = none
      rw [onLoadingCancelled_component]
      exact hempty
  | onAllComponentsLoaded hook => exact hempty
  | onAllComponentsAreStopping hook => exact hempty
  | setStageSwitchingCancelled b => exact hempty
  | setStage s => exact hempty
  | extractComponent => rfl
  | addItDependsOn n => exact hempty
  | addDependsOnIt n => exact hempty

/-- Witness for C6 (amended) at a fresh cell and a non-installing call. -/
theorem C6_amended_no_refill_except_set_witness :
    (applyOp (initComponentInfo "A") (Op.setStageSwitchingCancelled true)).component = none ∧
    (setComponent (initComponentInfo "A") 9).component = some 9 :=
  C6_amended_no_refill_except_set (initComponentInfo "A")
    (Op.setStageSwitchingCancelled true) 9 rfl rfl

/-- Claim C7 (counterexample): `SetStageSwitchingCancelled` assigns its
boolean argument, so the public interface CAN reset the flag from true
back to false, refuting strict monotonicity. -/
theorem C7_counterexample_flag_reset :
    (setStageSwitchingCancelled (initComponentInfo "A") true).stage_switching_cancelled
      = true ∧
    (setStageSwitchingCancelled (setStageSwitchingCancelled (initComponentInfo "A") true)
        false).stage_switching_cancelled = false :=
  ⟨rfl, rfl⟩

/-- Claim C7 (amended): every operation other than
`SetStageSwitchingCancelled false` preserves a set cancellation flag;
monotonicity therefore holds exactly as a caller discipline, since
`SetStageSwitchingCancelled` stores its argument and can clear the
flag. -/
theorem C7_amended_monotone_unless_reset (c : ComponentInfo) (op : Op)
    (h : c.stage_switching_cancelled = true) (hop : cancelledArg op ≠ some false) :
    (applyOp c op).stage_switching_cancelled = true ∧
    (setStageSwitchingCancelled c false).stage_switching_cancelled = false := by
  refine ⟨?_, rfl⟩
  cases op with
  | setComponent x =>
      show (setComponent c x).stage_switching_cancelled = true
      rw [setComponent_cancelled]
      exact h
  | clearComponent =>
      show (clearComponent c).stage_switching_cancelled = true
      unfold clearComponent
      by_cases hc : c.component.isNone <;> simp [hc, h, extractComponent]
  | onLoadingCancelled =>
      show (onLoadingCancelled c).stage_switching_cancelled = true
      rw [onLoadingCancelled_cancelled]
      exact h
  | onAllComponentsLoaded hook => exact h
  | onAllComponentsAreStopping hook => exact h
  | setStageSwitchingCancelled b =>
      cases b
      · exact absurd rfl hop
      · rfl
  | setStage s => exact h
  | extractComponent => exact h
  | addItDependsOn n => exact h
  | addDependsOnIt n => exact h

/-- Witness for C7 (amended): a stage change preserves the set flag; an
explicit reset clears it. -/
theorem C7_amended_monotone_unless_reset_witness :
    (applyOp { initComponentInfo "A" with stage_switching_cancelled := true }
        (Op.setStage ComponentLifetimeStage.kRunning)).stage_switching_cancelled = true ∧
    (setStageSwitchingCancelled { initComponentInfo "A" with stage_switching_cancelled := true }
        false).stage_switching_cancelled = false :=
  C7_amended_monotone_unless_reset
    { initComponentInfo "A" with stage_switching_cancelled := true }
    (Op.setStage ComponentLifetimeStage.kRunning) rfl (by decide)

/-- Claim C8 (counterexample): a sequence of `SetStage` calls makes
`GetStage` observe a transition from `kRunning` back to the strictly
earlier stage `kUnborn` — the cell enforces no forward-only order. -/
theorem C8_counterexample_backward_stage :
    getStage (setStage (initComponentInfo "A") ComponentLifetimeStage.kRunning)
      = ComponentLifetimeStage.kRunning ∧
    getStage (setStage (setStage (initComponentInfo "A") ComponentLifetimeStage.kRunning)
        ComponentLifetimeStage.kUnborn) = ComponentLifetimeStage.kUnborn ∧
    stageIdx ComponentLifetimeStage.kUnborn < stageIdx ComponentLifetimeStage.kRunning :=
  ⟨rfl, rfl, by decide⟩

/-- Claim C8 (amended): `SetStage` stores its argument unconditionally and
`SetComponent` sets the stage to `kCreated` unconditionally; the cell
itself checks neither forward movement nor skipping — the fixed total
order is the orchestrator's discipline, not a cell invariant. -/
theorem C8_amended_stage_stored_unconditionally (c : ComponentInfo)
    (s : ComponentLifetimeStage) (x : Nat) :
    (setStage c s).stage = s ∧ (setComponent c x).stage = ComponentLifetimeStage.kCreated :=
  ⟨rfl, setComponent_stage c x⟩

/-- Claim C9: on a cell holding a component, a throwing
`OnAllComponentsLoaded` hook is re-raised wrapped with the component's
name as context, never absorbed; a non-throwing hook returns normally. -/
theorem C9_on_all_components_loaded_wraps (c : ComponentInfo) (e : String)
    (h : c.component.isSome = true) :
    onAllComponentsLoaded c (Except.error e)
      = Except.error ("OnAllComponentsLoaded() failed for component " ++ c.name ++ ": " ++ e) ∧
    onAllComponentsLoaded c (Except.ok ()) = Except.ok () := by
  have hnone : c.component.isNone = false := by
    cases hc : c.component
    · rw [hc] at h; exact absurd h (by simp)
    · rfl
  constructor <;> simp [onAllComponentsLoaded, hnone]

/-- Witness for C9 on a holding cell named "comp" and hook error "boom". -/
theorem C9_on_all_components_loaded_wraps_witness :
    onAllComponentsLoaded { initComponentInfo "comp" with component := some 1 }
        (Except.error "boom")
      = Except.error ("OnAllComponentsLoaded() failed for component "
          ++ ({ initComponentInfo "comp" with component := some 1 } : ComponentInfo).name
          ++ ": " ++ "boom") ∧
    onAllComponentsLoaded { initComponentInfo "comp" with component := some 1 }
        (Except.ok ()) = Except.ok () :=
  C9_on_all_components_loaded_wraps
    { initComponentInfo "comp" with component := some 1 } "boom" rfl

/-- Claim C10: `ExtractComponent` mutates only the held slot — name,
stage, cancellation flag, hook guard, both dependency-edge sets (and the
ghost hook counter) are unchanged, whether or not a component was
held. -/
theorem C10_extract_component_frame (c : ComponentInfo) :
    ((extractComponent c).2).name = c.name ∧
    ((extractComponent c).2).stage = c.stage ∧
    ((extractComponent c).2).stage_switching_cancelled = c.stage_switching_cancelled ∧
    ((extractComponent c).2).on_loading_cancelled_called = c.on_loading_cancelled_called ∧
    ((extractComponent c).2).it_depends_on = c.it_depends_on ∧
    ((extractComponent c).2).depends_on_it = c.depends_on_it ∧
    ((extractComponent c).2).hook_calls = c.hook_calls :=
  ⟨rfl, rfl, rfl, rfl, rfl, rfl, rfl⟩

end ComponentLifecycle
